import Mathlib

/-!
Verification of the LLM Q&A client (`LLM_QA_CLI.py` and `app.py`).

The two Python files each implement one call to a remote model endpoint with
bounded retry and response normalisation (`get_llm_answer` in the CLI file,
`get_llm_answer_api` in the web file), plus thin adapters (the CLI loop `main`
and the Flask route `ask_llm`).

The embedding below models:
  * JSON values (`Json`) — numeric values are modelled as integers; no claim
    involves numeric payload values;
  * the Python operations the source performs on decoded JSON (`dict.get`,
    subscripting, `x[0]`, `in`, iteration, truthiness), each returning
    `Except String _` where the operation can raise; the carried string models
    the text of the raised exception as interpolated by the source's f-strings.
    Only the `IndexError` text "list index out of range" is exercised exactly
    by the specification; other exception texts are modelled approximately
    (Python's quote characters are omitted);
  * the transport as a function `Json → Nat → Outcome`: the outcome of POSTing
    a given payload on a given 0-indexed attempt.  `requestError` covers
    everything `requests.exceptions.RequestException` covers (connection
    error, timeout, and non-2xx responses surfaced by `raise_for_status`);
    `ok body` is a 2xx response whose body decoded to `body`; `badJson` is a
    2xx response whose body failed to decode, raising from `response.json()`
    (modelled as a non-RequestException, handled by the generic
    `except Exception` branch, matching the design document's taxonomy);
  * the retry loops of both files, instrumented with the number of outbound
    attempts made and the list of back-off sleep durations, in order.

Python's `str.lower`, `str.strip`, `\w` and `\s` are modelled at the ASCII
level (`Char.toLower`, `String.trim`, `Char.isAlphanum`/`Char.isWhitespace`).
-/

namespace LlmQa

/-- A decoded JSON value, as produced by `response.json()` / `request.json`. -/
inductive Json where
  | null
  | bool (b : Bool)
  | num (n : Int)
  | str (s : String)
  | arr (elems : List Json)
  | obj (fields : List (String × Json))

/-- Python type name of a value, used in modelled exception texts. -/
def pyTypeName : Json → String
  | .null => "NoneType"
  | .bool _ => "bool"
  | .num _ => "int"
  | .str _ => "str"
  | .arr _ => "list"
  | .obj _ => "dict"

/-- Python truthiness of a decoded JSON value. -/
def Json.truthy : Json → Bool
  | .null => false
  | .bool b => b
  | .num n => n != 0
  | .str s => s ≠ ""
  | .arr xs => !xs.isEmpty
  | .obj fs => !fs.isEmpty

/-- Python `x.get(key, default)`: succeeds only on a dict, else raises
`AttributeError`. -/
def pyGet (j : Json) (key : String) (default : Json) : Except String Json :=
  match j with
  | .obj fs => .ok ((fs.lookup key).getD default)
  | _ => .error (pyTypeName j ++ " object has no attribute get")

/-- Python `x[key]` for a string `key`. -/
def pyGetItem (j : Json) (key : String) : Except String Json :=
  match j with
  | .obj fs =>
    match fs.lookup key with
    | some v => .ok v
    | none => .error ("KeyError: " ++ key)
  | .arr _ => .error "list indices must be integers or slices, not str"
  | .str _ => .error "string indices must be integers"
  | _ => .error (pyTypeName j ++ " object is not subscriptable")

/-- Python `x[0]`.  On an empty list this raises
`IndexError: list index out of range` — the source never guards this. -/
def pyIndex0 (j : Json) : Except String Json :=
  match j with
  | .arr [] => .error "list index out of range"
  | .arr (x :: _) => .ok x
  | .str s =>
    match s.data with
    | [] => .error "string index out of range"
    | c :: _ => .ok (.str (String.singleton c))
  | .obj _ => .error "KeyError: 0"
  | _ => .error (pyTypeName j ++ " object is not subscriptable")

/-- Substring test, modelling Python `needle in haystack` on strings. -/
def strContainsSub (hay needle : String) : Bool :=
  (List.range (hay.length + 1)).any
    (fun i => (hay.data.drop i).take needle.length == needle.data)

/-- Python `key in x` for a string `key`: dict key membership, list element
membership (string elements only can compare equal to `key`), substring test
on strings; raises `TypeError` otherwise. -/
def pyContains (j : Json) (key : String) : Except String Bool :=
  match j with
  | .obj fs => .ok (fs.lookup key).isSome
  | .arr xs =>
    .ok (xs.any (fun x => match x with | .str s => s == key | _ => false))
  | .str s => .ok (strContainsSub s key)
  | _ => .error ("argument of type " ++ pyTypeName j ++ " is not iterable")

/-- Python `for … in x`: the sequence of iterates (list elements, string
characters as one-character strings, dict keys); raises `TypeError` otherwise. -/
def pyIter (j : Json) : Except String (List Json) :=
  match j with
  | .arr xs => .ok xs
  | .str s => .ok (s.data.map (fun c => Json.str (String.singleton c)))
  | .obj fs => .ok (fs.map (fun f => Json.str f.1))
  | _ => .error (pyTypeName j ++ " object is not iterable")

/-- One extracted citation, `{"uri": …, "title": …}`.  The source copies the
values unchecked, so they are arbitrary JSON values. -/
structure SourceJ where
  uri : Json
  title : Json

/-- The grounding-source list comprehension, identical in both source files
(`LLM_QA_CLI.py` lines 61–68, `app.py` lines 47–54):

    [{"uri": attr['web']['uri'], "title": attr['web']['title']}
     for attr in grounding_metadata['groundingAttributions']
     if 'web' in attr and 'uri' in attr['web'] and 'title' in attr['web']]

The filter is evaluated first for each element, with Python short-circuit
`and`; any exception raised by it, or by the element expression, propagates. -/
def extractSources : List Json → Except String (List SourceJ)
  | [] => pure []
  | attr :: rest => do
    let keep ← do
      let hasWeb ← pyContains attr "web"
      if hasWeb then do
        let web ← pyGetItem attr "web"
        let hasUri ← pyContains web "uri"
        if hasUri then do
          let web2 ← pyGetItem attr "web"
          pyContains web2 "title"
        else pure false
      else pure false
    if keep then do
      let web3 ← pyGetItem attr "web"
      let uri ← pyGetItem web3 "uri"
      let web4 ← pyGetItem attr "web"
      let title ← pyGetItem web4 "title"
      let tail ← extractSources rest
      pure (⟨uri, title⟩ :: tail)
    else extractSources rest

/-- The response-shape logic shared verbatim by both files
(`LLM_QA_CLI.py` lines 51–68, `app.py` lines 36–54):

    candidate = result.get('candidates', [None])[0]
    if not candidate or not candidate.get('content') or not candidate['content'].get('parts'):
        return <malformed answer>            -- modelled as `.ok none`
    text = candidate['content']['parts'][0]['text']
    sources = []
    grounding_metadata = candidate.get('groundingMetadata')
    if grounding_metadata and grounding_metadata.get('groundingAttributions'):
        sources = [ … ]                      -- `extractSources`

`.ok none` is the malformed-shape return (each caller substitutes its own
message), `.ok (some (text, sources))` the success return, `.error e` an
exception escaping to the caller's generic handler. -/
def parseShape (result : Json) : Except String (Option (Json × List SourceJ)) := do
  let candidates ← pyGet result "candidates" (Json.arr [Json.null])
  let candidate ← pyIndex0 candidates
  if !candidate.truthy then return none
  let content0 ← pyGet candidate "content" Json.null
  if !content0.truthy then return none
  let content1 ← pyGetItem candidate "content"
  let parts0 ← pyGet content1 "parts" Json.null
  if !parts0.truthy then return none
  let content2 ← pyGetItem candidate "content"
  let parts ← pyGetItem content2 "parts"
  let part0 ← pyIndex0 parts
  let text ← pyGetItem part0 "text"
  let gm ← pyGet candidate "groundingMetadata" Json.null
  if gm.truthy then do
    let gas ← pyGet gm "groundingAttributions" Json.null
    if gas.truthy then do
      let gasv ← pyGetItem gm "groundingAttributions"
      let attrs ← pyIter gasv
      let sources ← extractSources attrs
      return some (text, sources)
    else return some (text, [])
  else return some (text, [])

/-- The dict returned by `get_llm_answer`: keys `"text"` and `"sources"`. -/
structure CliResult where
  text : Json
  sources : List SourceJ

/-- The dict returned by `get_llm_answer_api`: keys `"answer"` and `"sources"`. -/
structure ApiResult where
  answer : Json
  sources : List SourceJ

/-- `LLM_QA_CLI.py` line 53: the malformed-shape return value. -/
def mkMalformedCli : CliResult :=
  ⟨Json.str "API response was empty or malformed.", []⟩

/-- `app.py` line 39: the malformed-shape return value (note the extra
`Error: ` prefix relative to the CLI file). -/
def mkMalformedApi : ApiResult :=
  ⟨Json.str "Error: API response was empty or malformed.", []⟩

/-- Parsing of a decoded response body in `get_llm_answer`
(`LLM_QA_CLI.py` lines 51–70). -/
def parseBodyCli (body : Json) : Except String CliResult := do
  match ← parseShape body with
  | none => pure mkMalformedCli
  | some (text, sources) => pure ⟨text, sources⟩

/-- Parsing of a decoded response body in `get_llm_answer_api`
(`app.py` lines 36–56). -/
def parseBodyApi (body : Json) : Except String ApiResult := do
  match ← parseShape body with
  | none => pure mkMalformedApi
  | some (text, sources) => pure ⟨text, sources⟩

/-- `MAX_RETRIES = 5`, identical in both files. -/
def MAX_RETRIES : Nat := 5

/-- `LLM_QA_CLI.py` line 78: the answer returned after the final failed
attempt. -/
def mkCliFail (msg : String) : CliResult :=
  ⟨Json.str ("Error: Failed to connect to API after " ++ toString MAX_RETRIES
      ++ " attempts. " ++ msg), []⟩

/-- `LLM_QA_CLI.py` line 80: the answer returned by the generic exception
handler. -/
def mkCliUnexpected (msg : String) : CliResult :=
  ⟨Json.str ("An unexpected error occurred: " ++ msg), []⟩

/-- `app.py` line 64: the answer returned after the final failed attempt. -/
def mkApiFail (msg : String) : ApiResult :=
  ⟨Json.str ("API Error: Failed to connect to LLM after " ++ toString MAX_RETRIES
      ++ " attempts. " ++ msg), []⟩

/-- `app.py` line 66: the answer returned by the generic exception handler. -/
def mkApiUnexpected (msg : String) : ApiResult :=
  ⟨Json.str ("An unexpected error occurred: " ++ msg), []⟩

/-- One transport outcome for one outbound attempt. -/
inductive Outcome where
  | requestError (msg : String)
  | ok (body : Json)
  | badJson (msg : String)

/-- A completed call: the returned record, the number of outbound attempts
made, and the back-off sleep durations in chronological order. -/
structure Run (α : Type) where
  result : α
  attempts : Nat
  sleeps : List Nat

/-- One successful-transport attempt in `get_llm_answer`: parse the body;
an exception is caught by the generic handler (`LLM_QA_CLI.py` lines 79–80). -/
def attemptCli (body : Json) : CliResult :=
  match parseBodyCli body with
  | .ok r => r
  | .error e => mkCliUnexpected e

/-- One successful-transport attempt in `get_llm_answer_api`
(`app.py` lines 65–66). -/
def attemptApi (body : Json) : ApiResult :=
  match parseBodyApi body with
  | .ok r => r
  | .error e => mkApiUnexpected e

/-- The retry loop of `get_llm_answer` (`LLM_QA_CLI.py` lines 43–80), over the
list of remaining attempt indices (`for attempt in range(MAX_RETRIES)`).
`none` models falling off the end of the loop (Python would return `None`);
with the full index list this never happens.  On a `RequestException` before
the last attempt the loop sleeps `2 ** attempt` and continues; on the last
attempt it returns the terminal failure answer. -/
def cliLoop (transport : Json → Nat → Outcome) (payload : Json) :
    List Nat → Option (Run CliResult)
  | [] => none
  | attempt :: rest =>
    match transport payload attempt with
    | .requestError msg =>
      if attempt < MAX_RETRIES - 1 then
        match cliLoop transport payload rest with
        | some run => some ⟨run.result, run.attempts + 1, 2 ^ attempt :: run.sleeps⟩
        | none => none
      else
        some ⟨mkCliFail msg, 1, []⟩
    | .ok body => some ⟨attemptCli body, 1, []⟩
    | .badJson msg => some ⟨mkCliUnexpected msg, 1, []⟩

/-- The retry loop of `get_llm_answer_api` (`app.py` lines 30–66). -/
def apiLoop (transport : Json → Nat → Outcome) (payload : Json) :
    List Nat → Option (Run ApiResult)
  | [] => none
  | attempt :: rest =>
    match transport payload attempt with
    | .requestError msg =>
      if attempt < MAX_RETRIES - 1 then
        match apiLoop transport payload rest with
        | some run => some ⟨run.result, run.attempts + 1, 2 ^ attempt :: run.sleeps⟩
        | none => none
      else
        some ⟨mkApiFail msg, 1, []⟩
    | .ok body => some ⟨attemptApi body, 1, []⟩
    | .badJson msg => some ⟨mkApiUnexpected msg, 1, []⟩

/-- The fixed system instruction of `LLM_QA_CLI.py` line 40. -/
def cliSystemInstruction : String :=
  "You are a helpful and expert Question-Answering system. Provide a concise and accurate answer based on the query and use Google Search grounding when necessary."

/-- The fixed system instruction of `app.py` line 27. -/
def apiSystemInstruction : String :=
  "You are a helpful and expert Question-Answering system. Provide a concise, clear, and factual answer based on the query, citing sources if used."

/-- The request payload built by `get_llm_answer` (`LLM_QA_CLI.py` lines
36–41). -/
def requestPayloadCli (prompt : String) : Json :=
  Json.obj
    [("contents", Json.arr [Json.obj [("parts", Json.arr [Json.obj [("text", Json.str prompt)]])]]),
     ("tools", Json.arr [Json.obj [("google_search", Json.obj [])]]),
     ("systemInstruction", Json.obj [("parts", Json.arr [Json.obj [("text", Json.str cliSystemInstruction)]])])]

/-- The request payload built by `get_llm_answer_api` (`app.py` lines 23–28). -/
def requestPayloadApi (prompt : String) : Json :=
  Json.obj
    [("contents", Json.arr [Json.obj [("parts", Json.arr [Json.obj [("text", Json.str prompt)]])]]),
     ("tools", Json.arr [Json.obj [("google_search", Json.obj [])]]),
     ("systemInstruction", Json.obj [("parts", Json.arr [Json.obj [("text", Json.str apiSystemInstruction)]])])]

/-- `get_llm_answer(prompt)` of `LLM_QA_CLI.py`, with the transport supplied
explicitly: it POSTs `requestPayloadCli prompt` on every attempt. -/
def get_llm_answer (prompt : String) (transport : Json → Nat → Outcome) :
    Option (Run CliResult) :=
  cliLoop transport (requestPayloadCli prompt) (List.range MAX_RETRIES)

/-- `get_llm_answer_api(prompt)` of `app.py`. -/
def get_llm_answer_api (prompt : String) (transport : Json → Nat → Outcome) :
    Option (Run ApiResult) :=
  apiLoop transport (requestPayloadApi prompt) (List.range MAX_RETRIES)

/-- One extracted source as the dict literal `{"uri": …, "title": …}`. -/
def sourceJson (s : SourceJ) : Json :=
  Json.obj [("uri", s.uri), ("title", s.title)]

/-- The dict returned by `get_llm_answer`, as JSON: keys `"text"` and
`"sources"`, in the order the source writes them. -/
def cliResultJson (r : CliResult) : Json :=
  Json.obj [("text", r.text), ("sources", Json.arr (r.sources.map sourceJson))]

/-- The dict returned by `get_llm_answer_api`, as JSON: keys `"answer"` and
`"sources"`. -/
def apiResultJson (r : ApiResult) : Json :=
  Json.obj [("answer", r.answer), ("sources", Json.arr (r.sources.map sourceJson))]

/-- Field lookup on a JSON object (`none` on non-objects). -/
def jsonField (j : Json) (key : String) : Option Json :=
  match j with
  | .obj fs => fs.lookup key
  | _ => none

/-- Python `str.lower()`, modelled at the ASCII level. -/
def pyLower (s : String) : String :=
  String.mk (s.data.map Char.toLower)

/-- Python `str.strip()` with no argument: remove leading and trailing
whitespace (modelled at the ASCII level). -/
def pyStrip (s : String) : String :=
  String.mk (((s.data.dropWhile Char.isWhitespace).reverse.dropWhile
    Char.isWhitespace).reverse)

/-- The Flask handler for `POST /ask` (`app.py` lines 76–88).  Input is the
decoded request body; output is `some (status, responseBody, outboundAttempts)`
where `outboundAttempts` counts the calls made to the transport, or `none`
when the handler itself raises (a non-object body or a non-string question
value makes `data.get(…).strip()` raise `AttributeError`, which Flask surfaces
as a 500).  `jsonify(response)` carries the default status 200; the
empty-question branch returns 400 before any outbound call is made. -/
def ask_llm (transport : Json → Nat → Outcome) (data : Json) :
    Option (Nat × Json × Nat) := do
  let qv ← (match data with
    | Json.obj fs => some ((fs.lookup "question").getD (Json.str ""))
    | _ => none)
  let q ← (match qv with
    | Json.str s => some (pyStrip s)
    | _ => none)
  if q = "" then
    some (400,
      Json.obj [("answer", Json.str "Please provide a question."), ("sources", Json.arr [])],
      0)
  else do
    let run ← get_llm_answer_api q transport
    some (200, apiResultJson run.result, run.attempts)

/-- `preprocess_question` (`LLM_QA_CLI.py` lines 14–28): lower-case, drop
punctuation (keep word characters and whitespace), and collapse whitespace by
split-and-join.  `\w`, `\s` and `str.lower` are modelled at the ASCII level. -/
def preprocess_question (question : String) : String :=
  let text := pyLower question
  let text2 := String.mk (text.data.filter
    (fun c => c.isAlphanum || c == '_' || c.isWhitespace))
  " ".intercalate ((text2.split Char.isWhitespace).filter (fun s => s ≠ ""))

/-- What one accepted input line leads to in `main`'s loop body. -/
inductive LineResult where
  | exit
  | skip
  | answered (displayed : String) (payload : Json) (run : Option (Run CliResult))

/-- One iteration of `main`'s loop (`LLM_QA_CLI.py` lines 88–117) on the line
`raw`: `quit`/`exit` (case-insensitive) terminate, blank lines are skipped,
otherwise the processed question is printed for display and **the raw line**
is passed to `get_llm_answer` (line 105 sends `raw_question`, not the
preprocessed text).  `answered` records the displayed text, the payload the
call POSTs, and the returned answer. -/
def mainHandleLine (transport : Json → Nat → Outcome) (raw : String) : LineResult :=
  if pyLower raw = "quit" || pyLower raw = "exit" then .exit
  else if pyStrip raw = "" then .skip
  else .answered (preprocess_question raw) (requestPayloadCli raw)
    (get_llm_answer raw transport)

/-- The prompt text a request payload carries:
`payload["contents"][0]["parts"][0]["text"]`. -/
def payloadPromptText (payload : Json) : Option Json :=
  match payload with
  | Json.obj fs =>
    match fs.lookup "contents" with
    | some (Json.arr (Json.obj c0 :: _)) =>
      match c0.lookup "parts" with
      | some (Json.arr (Json.obj p0 :: _)) => p0.lookup "text"
      | _ => none
    | _ => none
  | _ => none

/-- A grounding attribution of the shape the remote API documents: a JSON
object whose `web` field, when present, is itself an object.  The extraction
claims are stated over attributions of this shape (on other values the
comprehension's filter itself can raise `TypeError`). -/
def shapedAttr : Json → Bool
  | .obj afs =>
    match afs.lookup "web" with
    | none => true
    | some (.obj _) => true
    | some _ => false
  | _ => false

/-- The sources the specification describes: exactly those attributions that
carry both a web URI and a web title, each mapped to a `Source` of that URI
and title; attributions missing either are skipped. -/
def specSources (attrs : List Json) : List SourceJ :=
  attrs.filterMap (fun attr =>
    match attr with
    | .obj afs =>
      match afs.lookup "web" with
      | some (.obj wfs) =>
        match wfs.lookup "uri", wfs.lookup "title" with
        | some u, some t2 => some ⟨u, t2⟩
        | some _, none => none
        | none, _ => none
      | _ => none
    | _ => none)

/-! ### Concrete response bodies used in witnesses and counterexamples -/

/-- A minimal well-formed success body: one candidate, text `"hi"`, no
grounding metadata. -/
def bodySimple : Json :=
  Json.obj [("candidates", Json.arr [Json.obj
    [("content", Json.obj [("parts", Json.arr [Json.obj [("text", Json.str "hi")]])])]])]

/-- An attribution carrying both a web URI and a web title. -/
def attrComplete : Json :=
  Json.obj [("web", Json.obj [("uri", Json.str "u1"), ("title", Json.str "t1")])]

/-- An attribution whose `web` object is missing `uri`. -/
def attrNoUri : Json :=
  Json.obj [("web", Json.obj [("title", Json.str "t2")])]

/-- A well-formed success body with two grounding attributions, one missing
its URI. -/
def bodyGrounded : Json :=
  Json.obj [("candidates", Json.arr [Json.obj
    [("content", Json.obj [("parts", Json.arr [Json.obj [("text", Json.str "hi")]])]),
     ("groundingMetadata", Json.obj [("groundingAttributions",
        Json.arr [attrComplete, attrNoUri])])]])]

/-- A body whose `candidates` key holds an empty list — indexing `[0]` into it
raises `IndexError`. -/
def bodyEmptyCandidates : Json :=
  Json.obj [("candidates", Json.arr [])]

/-- A body with no `candidates` key at all. -/
def bodyNoCandidates : Json :=
  Json.obj [("other", Json.str "x")]

/-! ### Basic reduction lemmas -/

@[simp] theorem ok_bind {α β γ : Type} (a : α) (f : α → Except γ β) :
    (Except.ok a >>= f : Except γ β) = f a := rfl

@[simp] theorem error_bind {α β γ : Type} (e : γ) (f : α → Except γ β) :
    (Except.error e >>= f : Except γ β) = Except.error e := rfl

@[simp] theorem except_pure {α γ : Type} (a : α) :
    (pure a : Except γ α) = Except.ok a := rfl

theorem range_MAX_RETRIES : List.range MAX_RETRIES = [0, 1, 2, 3, 4] := rfl

@[simp] theorem truthy_null : Json.truthy Json.null = false := rfl

@[simp] theorem truthy_obj (fs : List (String × Json)) :
    Json.truthy (Json.obj fs) = !fs.isEmpty := rfl

@[simp] theorem truthy_arr (xs : List Json) :
    Json.truthy (Json.arr xs) = !xs.isEmpty := rfl

theorem pyGetItem_obj_some {fs : List (String × Json)} {k : String} {v : Json}
    (h : fs.lookup k = some v) : pyGetItem (Json.obj fs) k = .ok v := by
  simp [pyGetItem, h]

/-! ### Helper lemmas about the retry loops -/

/-- The CLI retry loop always returns once the final attempt index 4 occurs in
the remaining-index list: every branch of the body of attempt 4 returns. -/
theorem cliLoop_isSome (t : Json → Nat → Outcome) (p : Json) :
    ∀ l : List Nat, 4 ∈ l → (cliLoop t p l).isSome := by
  intro l
  induction l with
  | nil => intro h; cases h
  | cons a rest ih =>
    intro h
    cases ho : t p a with
    | requestError msg =>
      by_cases ha : a < MAX_RETRIES - 1
      · have h4 : 4 ∈ rest := by
          rcases List.mem_cons.mp h with rfl | hr
          · exact absurd ha (by norm_num [MAX_RETRIES])
          · exact hr
        have hrec := ih h4
        cases hrs : cliLoop t p rest with
        | none => rw [hrs] at hrec; cases hrec
        | some run => simp [cliLoop, ho, ha, hrs]
      · simp [cliLoop, ho, ha]
    | ok body => simp [cliLoop, ho]
    | badJson msg => simp [cliLoop, ho]

/-- The web retry loop always returns once attempt index 4 is reachable. -/
theorem apiLoop_isSome (t : Json → Nat → Outcome) (p : Json) :
    ∀ l : List Nat, 4 ∈ l → (apiLoop t p l).isSome := by
  intro l
  induction l with
  | nil => intro h; cases h
  | cons a rest ih =>
    intro h
    cases ho : t p a with
    | requestError msg =>
      by_cases ha : a < MAX_RETRIES - 1
      · have h4 : 4 ∈ rest := by
          rcases List.mem_cons.mp h with rfl | hr
          · exact absurd ha (by norm_num [MAX_RETRIES])
          · exact hr
        have hrec := ih h4
        cases hrs : apiLoop t p rest with
        | none => rw [hrs] at hrec; cases hrec
        | some run => simp [apiLoop, ho, ha, hrs]
      · simp [apiLoop, ho, ha]
    | ok body => simp [apiLoop, ho]
    | badJson msg => simp [apiLoop, ho]

/-- If every attempt fails at the transport level, the CLI loop makes all five
attempts, sleeps 1, 2, 4, 8, and returns the terminal failure answer built
from the last failure's message. -/
theorem cliLoop_all_fail (t : Json → Nat → Outcome) (p : Json) (msgs : Nat → String)
    (h : ∀ i, i < MAX_RETRIES → t p i = .requestError (msgs i)) :
    cliLoop t p [0, 1, 2, 3, 4] = some ⟨mkCliFail (msgs 4), 5, [1, 2, 4, 8]⟩ := by
  have h0 := h 0 (by norm_num [MAX_RETRIES])
  have h1 := h 1 (by norm_num [MAX_RETRIES])
  have h2 := h 2 (by norm_num [MAX_RETRIES])
  have h3 := h 3 (by norm_num [MAX_RETRIES])
  have h4 := h 4 (by norm_num [MAX_RETRIES])
  simp [cliLoop, h0, h1, h2, h3, h4, MAX_RETRIES]

/-- Web-side analogue of `cliLoop_all_fail`. -/
theorem apiLoop_all_fail (t : Json → Nat → Outcome) (p : Json) (msgs : Nat → String)
    (h : ∀ i, i < MAX_RETRIES → t p i = .requestError (msgs i)) :
    apiLoop t p [0, 1, 2, 3, 4] = some ⟨mkApiFail (msgs 4), 5, [1, 2, 4, 8]⟩ := by
  have h0 := h 0 (by norm_num [MAX_RETRIES])
  have h1 := h 1 (by norm_num [MAX_RETRIES])
  have h2 := h 2 (by norm_num [MAX_RETRIES])
  have h3 := h 3 (by norm_num [MAX_RETRIES])
  have h4 := h 4 (by norm_num [MAX_RETRIES])
  simp [apiLoop, h0, h1, h2, h3, h4, MAX_RETRIES]

/-- If the first attempt's transport succeeds, `get_llm_answer` makes exactly
one attempt, sleeps never, and returns the parse of that response body. -/
theorem get_llm_answer_first_ok (prompt : String) (t : Json → Nat → Outcome)
    (body : Json) (h : t (requestPayloadCli prompt) 0 = .ok body) :
    get_llm_answer prompt t = some ⟨attemptCli body, 1, []⟩ := by
  unfold get_llm_answer
  rw [range_MAX_RETRIES]
  simp [cliLoop, h]

/-- Web-side analogue of `get_llm_answer_first_ok`. -/
theorem get_llm_answer_api_first_ok (prompt : String) (t : Json → Nat → Outcome)
    (body : Json) (h : t (requestPayloadApi prompt) 0 = .ok body) :
    get_llm_answer_api prompt t = some ⟨attemptApi body, 1, []⟩ := by
  unfold get_llm_answer_api
  rw [range_MAX_RETRIES]
  simp [apiLoop, h]

/-! ### Relating the two near-duplicate implementations -/

/-- Body parsing in the two files is the same computation up to the result
record: exceptions agree, sources agree, and the texts agree except on the
malformed-shape return, where each file uses its own constant. -/
theorem parse_relate (body : Json) :
    (∃ e, parseBodyCli body = .error e ∧ parseBodyApi body = .error e) ∨
    (∃ rc ra, parseBodyCli body = .ok rc ∧ parseBodyApi body = .ok ra ∧
      rc.sources = ra.sources ∧
      (rc.text = ra.answer ∨ (rc = mkMalformedCli ∧ ra = mkMalformedApi))) := by
  unfold parseBodyCli parseBodyApi
  cases h : parseShape body with
  | error e =>
    left
    exact ⟨e, by simp [h], by simp [h]⟩
  | ok v =>
    right
    cases v with
    | none =>
      exact ⟨mkMalformedCli, mkMalformedApi, by simp [h], by simp [h], rfl,
        Or.inr ⟨rfl, rfl⟩⟩
    | some ts =>
      obtain ⟨tx, ss⟩ := ts
      exact ⟨⟨tx, ss⟩, ⟨tx, ss⟩, by simp [h], by simp [h], rfl, Or.inl rfl⟩

/-- The per-attempt results of the two files always have equal sources. -/
theorem attempt_sources_eq (body : Json) :
    (attemptCli body).sources = (attemptApi body).sources := by
  rcases parse_relate body with ⟨e, hc, hA⟩ | ⟨rc, ra, hc, hA, hs, _⟩
  · simp [attemptCli, attemptApi, hc, hA, mkCliUnexpected, mkApiUnexpected]
  · simp [attemptCli, attemptApi, hc, hA, hs]

/-- Run against transports with the same outcomes per attempt (the two files
POST different fixed payloads, so this is the "same transport behaviour"
hypothesis), the two retry loops agree on termination, attempt count, sleep
schedule, and extracted sources. -/
theorem loop_relate (t : Json → Nat → Outcome) (pc pa : Json)
    (hsame : ∀ i, t pc i = t pa i) :
    ∀ l : List Nat,
      (cliLoop t pc l = none ∧ apiLoop t pa l = none) ∨
      (∃ rc ra, cliLoop t pc l = some rc ∧ apiLoop t pa l = some ra ∧
        rc.attempts = ra.attempts ∧ rc.sleeps = ra.sleeps ∧
        rc.result.sources = ra.result.sources) := by
  intro l
  induction l with
  | nil => exact Or.inl ⟨rfl, rfl⟩
  | cons a rest ih =>
    cases ho : t pc a with
    | requestError msg =>
      have ho2 : t pa a = .requestError msg := (hsame a) ▸ ho
      by_cases ha : a < MAX_RETRIES - 1
      · rcases ih with ⟨hc, hA⟩ | ⟨rc, ra, hc, hA, h1, h2, h3⟩
        · left
          exact ⟨by simp [cliLoop, ho, ha, hc], by simp [apiLoop, ho2, ha, hA]⟩
        · right
          exact ⟨⟨rc.result, rc.attempts + 1, 2 ^ a :: rc.sleeps⟩,
                 ⟨ra.result, ra.attempts + 1, 2 ^ a :: ra.sleeps⟩,
                 by simp [cliLoop, ho, ha, hc], by simp [apiLoop, ho2, ha, hA],
                 by simp [h1], by simp [h2], h3⟩
      · right
        exact ⟨⟨mkCliFail msg, 1, []⟩, ⟨mkApiFail msg, 1, []⟩,
               by simp [cliLoop, ho, ha], by simp [apiLoop, ho2, ha], rfl, rfl, rfl⟩
    | ok body =>
      have ho2 : t pa a = .ok body := (hsame a) ▸ ho
      right
      exact ⟨⟨attemptCli body, 1, []⟩, ⟨attemptApi body, 1, []⟩,
             by simp [cliLoop, ho], by simp [apiLoop, ho2], rfl, rfl,
             attempt_sources_eq body⟩
    | badJson msg =>
      have ho2 : t pa a = .badJson msg := (hsame a) ▸ ho
      right
      exact ⟨⟨mkCliUnexpected msg, 1, []⟩, ⟨mkApiUnexpected msg, 1, []⟩,
             by simp [cliLoop, ho], by simp [apiLoop, ho2], rfl, rfl, rfl⟩

/-- If the transport fails on attempts `0 … k-2` and succeeds on attempt
`k-1`, the CLI loop makes exactly `k` attempts, sleeping `2^i` after failed
attempt `i`, and returns the parse of the `k`-th response. -/
theorem cliLoop_succeed_at (t : Json → Nat → Outcome) (p : Json)
    (msgs : Nat → String) (body : Json) (k : Nat) (hk1 : 1 ≤ k)
    (hk5 : k ≤ MAX_RETRIES)
    (hf : ∀ i, i < k - 1 → t p i = .requestError (msgs i))
    (ho : t p (k - 1) = .ok body) :
    cliLoop t p [0, 1, 2, 3, 4] =
      some ⟨attemptCli body, k, (List.range (k - 1)).map (fun i => 2 ^ i)⟩ := by
  have h5 : MAX_RETRIES = 5 := rfl
  rw [h5] at hk5
  interval_cases k
  · norm_num at ho
    simp [cliLoop, ho, List.range_zero]
  · norm_num at ho
    have h0 := hf 0 (by norm_num)
    rw [show List.range 1 = [0] from rfl]
    simp [cliLoop, ho, h0, MAX_RETRIES]
  · norm_num at ho
    have h0 := hf 0 (by norm_num)
    have h1 := hf 1 (by norm_num)
    rw [show List.range 2 = [0, 1] from rfl]
    simp [cliLoop, ho, h0, h1, MAX_RETRIES]
  · norm_num at ho
    have h0 := hf 0 (by norm_num)
    have h1 := hf 1 (by norm_num)
    have h2 := hf 2 (by norm_num)
    rw [show List.range 3 = [0, 1, 2] from rfl]
    simp [cliLoop, ho, h0, h1, h2, MAX_RETRIES]
  · norm_num at ho
    have h0 := hf 0 (by norm_num)
    have h1 := hf 1 (by norm_num)
    have h2 := hf 2 (by norm_num)
    have h3 := hf 3 (by norm_num)
    rw [show List.range 4 = [0, 1, 2, 3] from rfl]
    simp [cliLoop, ho, h0, h1, h2, h3, MAX_RETRIES]

/-- Web-side analogue of `cliLoop_succeed_at`. -/
theorem apiLoop_succeed_at (t : Json → Nat → Outcome) (p : Json)
    (msgs : Nat → String) (body : Json) (k : Nat) (hk1 : 1 ≤ k)
    (hk5 : k ≤ MAX_RETRIES)
    (hf : ∀ i, i < k - 1 → t p i = .requestError (msgs i))
    (ho : t p (k - 1) = .ok body) :
    apiLoop t p [0, 1, 2, 3, 4] =
      some ⟨attemptApi body, k, (List.range (k - 1)).map (fun i => 2 ^ i)⟩ := by
  have h5 : MAX_RETRIES = 5 := rfl
  rw [h5] at hk5
  interval_cases k
  · norm_num at ho
    simp [apiLoop, ho, List.range_zero]
  · norm_num at ho
    have h0 := hf 0 (by norm_num)
    rw [show List.range 1 = [0] from rfl]
    simp [apiLoop, ho, h0, MAX_RETRIES]
  · norm_num at ho
    have h0 := hf 0 (by norm_num)
    have h1 := hf 1 (by norm_num)
    rw [show List.range 2 = [0, 1] from rfl]
    simp [apiLoop, ho, h0, h1, MAX_RETRIES]
  · norm_num at ho
    have h0 := hf 0 (by norm_num)
    have h1 := hf 1 (by norm_num)
    have h2 := hf 2 (by norm_num)
    rw [show List.range 3 = [0, 1, 2] from rfl]
    simp [apiLoop, ho, h0, h1, h2, MAX_RETRIES]
  · norm_num at ho
    have h0 := hf 0 (by norm_num)
    have h1 := hf 1 (by norm_num)
    have h2 := hf 2 (by norm_num)
    have h3 := hf 3 (by norm_num)
    rw [show List.range 4 = [0, 1, 2, 3] from rfl]
    simp [apiLoop, ho, h0, h1, h2, h3, MAX_RETRIES]

/-! ### Source extraction against the specification's description -/

/-- On attributions of the documented shape, the source comprehension raises
nothing and returns exactly the specification's source list. -/
theorem extractSources_eq_spec :
    ∀ attrs : List Json, (∀ a ∈ attrs, shapedAttr a) →
      extractSources attrs = .ok (specSources attrs) := by
  intro attrs
  induction attrs with
  | nil => intro _; rfl
  | cons a rest ih =>
    intro h
    have ha : shapedAttr a := h a (List.mem_cons_self a rest)
    have hrest := ih (fun x hx => h x (List.mem_cons_of_mem a hx))
    cases a with
    | obj afs =>
      cases hw : afs.lookup "web" with
      | none =>
        simp [extractSources, pyContains, hw, hrest, specSources, List.filterMap_cons]
      | some w =>
        cases w with
        | obj wfs =>
          cases hu : wfs.lookup "uri" with
          | none =>
            simp [extractSources, pyContains, pyGetItem, hw, hu, hrest,
              specSources, List.filterMap_cons]
          | some u =>
            cases ht : wfs.lookup "title" with
            | none =>
              simp [extractSources, pyContains, pyGetItem, hw, hu, ht, hrest,
                specSources, List.filterMap_cons]
            | some t2 =>
              simp [extractSources, pyContains, pyGetItem, hw, hu, ht, hrest,
                specSources, List.filterMap_cons]
        | null => simp [shapedAttr, hw] at ha
        | bool b => simp [shapedAttr, hw] at ha
        | num n => simp [shapedAttr, hw] at ha
        | str s => simp [shapedAttr, hw] at ha
        | arr xs => simp [shapedAttr, hw] at ha
    | null => simp [shapedAttr] at ha
    | bool b => simp [shapedAttr] at ha
    | num n => simp [shapedAttr] at ha
    | str s => simp [shapedAttr] at ha
    | arr xs => simp [shapedAttr] at ha

/-! ### Parsing lemmas for well-formed and malformed response shapes -/

/-- A well-formed success response whose first candidate carries grounding
metadata of the documented shape parses to its text together with the
specification's source list. -/
theorem parseShape_success_gm (bfs cfs gmf : List (String × Json))
    (crest : List Json) (cnf : List (String × Json)) (p0 : Json)
    (ps : List Json) (tj : Json) (attrs : List Json)
    (hb : bfs.lookup "candidates" = some (Json.arr (Json.obj cfs :: crest)))
    (hc : cfs.lookup "content" = some (Json.obj cnf))
    (hcn : cnf.isEmpty = false)
    (hp : cnf.lookup "parts" = some (Json.arr (p0 :: ps)))
    (htx : pyGetItem p0 "text" = .ok tj)
    (hgm : cfs.lookup "groundingMetadata" = some (Json.obj gmf))
    (hga : gmf.lookup "groundingAttributions" = some (Json.arr attrs))
    (hsh : ∀ a ∈ attrs, shapedAttr a) :
    parseShape (Json.obj bfs) = .ok (some (tj, specSources attrs)) := by
  have hcfs : cfs.isEmpty = false := by
    cases cfs with
    | nil => simp at hc
    | cons f fs => rfl
  have hgmf : gmf.isEmpty = false := by
    cases gmf with
    | nil => simp at hga
    | cons f fs => rfl
  have g1 : pyGetItem (Json.obj cfs) "content" = .ok (Json.obj cnf) :=
    pyGetItem_obj_some hc
  have g2 : pyGetItem (Json.obj cnf) "parts" = .ok (Json.arr (p0 :: ps)) :=
    pyGetItem_obj_some hp
  have g3 : pyGetItem (Json.obj gmf) "groundingAttributions" = .ok (Json.arr attrs) :=
    pyGetItem_obj_some hga
  cases attrs with
  | nil =>
    simp [parseShape, pyGet, pyIndex0, hb, hc, hcn, hp, htx, hgm, hga, hcfs,
      hgmf, g1, g2, specSources]
  | cons a rest =>
    have hex := extractSources_eq_spec (a :: rest) hsh
    simp [parseShape, pyGet, pyIndex0, pyIter, hb, hc, hcn, hp, htx, hgm, hga,
      hcfs, hgmf, g1, g2, g3, hex]

/-- A well-formed success response whose first candidate has no
`groundingMetadata` key parses to its text with no sources. -/
theorem parseShape_success_no_gm (bfs cfs : List (String × Json))
    (crest : List Json) (cnf : List (String × Json)) (p0 : Json)
    (ps : List Json) (tj : Json)
    (hb : bfs.lookup "candidates" = some (Json.arr (Json.obj cfs :: crest)))
    (hc : cfs.lookup "content" = some (Json.obj cnf))
    (hcn : cnf.isEmpty = false)
    (hp : cnf.lookup "parts" = some (Json.arr (p0 :: ps)))
    (htx : pyGetItem p0 "text" = .ok tj)
    (hgm : cfs.lookup "groundingMetadata" = none) :
    parseShape (Json.obj bfs) = .ok (some (tj, [])) := by
  have hcfs : cfs.isEmpty = false := by
    cases cfs with
    | nil => simp at hc
    | cons f fs => rfl
  have g1 : pyGetItem (Json.obj cfs) "content" = .ok (Json.obj cnf) :=
    pyGetItem_obj_some hc
  have g2 : pyGetItem (Json.obj cnf) "parts" = .ok (Json.arr (p0 :: ps)) :=
    pyGetItem_obj_some hp
  simp [parseShape, pyGet, pyIndex0, hb, hc, hcn, hp, htx, hgm, hcfs, g1, g2]

/-- Malformed shape, family 1: no `candidates` key — the default `[None]` is
used, the candidate is `None`, and the malformed return fires. -/
theorem parseShape_no_candidates (bfs : List (String × Json))
    (hb : bfs.lookup "candidates" = none) :
    parseShape (Json.obj bfs) = .ok none := by
  simp [parseShape, pyGet, pyIndex0, hb]

/-- Malformed shape, family 2: the first candidate is `null`. -/
theorem parseShape_null_candidate (bfs : List (String × Json)) (crest : List Json)
    (hb : bfs.lookup "candidates" = some (Json.arr (Json.null :: crest))) :
    parseShape (Json.obj bfs) = .ok none := by
  simp [parseShape, pyGet, pyIndex0, hb]

/-- Malformed shape, family 3: the first candidate is a non-empty object with
no truthy `content`. -/
theorem parseShape_no_content (bfs cfs : List (String × Json)) (crest : List Json)
    (hb : bfs.lookup "candidates" = some (Json.arr (Json.obj cfs :: crest)))
    (hcfs : cfs.isEmpty = false)
    (hc : Json.truthy ((cfs.lookup "content").getD Json.null) = false) :
    parseShape (Json.obj bfs) = .ok none := by
  simp [parseShape, pyGet, pyIndex0, hb, hcfs, hc]

/-- Malformed shape, family 4: content is a non-empty object with no truthy
`parts`. -/
theorem parseShape_no_parts (bfs cfs cnf : List (String × Json)) (crest : List Json)
    (hb : bfs.lookup "candidates" = some (Json.arr (Json.obj cfs :: crest)))
    (hc : cfs.lookup "content" = some (Json.obj cnf))
    (hp : Json.truthy ((cnf.lookup "parts").getD Json.null) = false) :
    parseShape (Json.obj bfs) = .ok none := by
  have hcfs : cfs.isEmpty = false := by
    cases cfs with
    | nil => simp at hc
    | cons f fs => rfl
  have g1 : pyGetItem (Json.obj cfs) "content" = .ok (Json.obj cnf) :=
    pyGetItem_obj_some hc
  simp [parseShape, pyGet, pyIndex0, hb, hc, hp, hcfs, g1]

/-- A parse reaching the malformed-shape return yields each file's malformed
answer constant (CLI side). -/
theorem attemptCli_of_none {body : Json} (h : parseShape body = .ok none) :
    attemptCli body = mkMalformedCli := by
  simp [attemptCli, parseBodyCli, h]

/-- Web-side analogue of `attemptCli_of_none`. -/
theorem attemptApi_of_none {body : Json} (h : parseShape body = .ok none) :
    attemptApi body = mkMalformedApi := by
  simp [attemptApi, parseBodyApi, h]

/-- A parse reaching the success return yields the text/sources record (CLI
side). -/
theorem attemptCli_of_some {body tx : Json} {ss : List SourceJ}
    (h : parseShape body = .ok (some (tx, ss))) : attemptCli body = ⟨tx, ss⟩ := by
  simp [attemptCli, parseBodyCli, h]

/-- Web-side analogue of `attemptCli_of_some`. -/
theorem attemptApi_of_some {body tx : Json} {ss : List SourceJ}
    (h : parseShape body = .ok (some (tx, ss))) : attemptApi body = ⟨tx, ss⟩ := by
  simp [attemptApi, parseBodyApi, h]

/-! ### Claim theorems -/

/-- C1: for every input string and every transport behaviour (success with an
arbitrary decoded body, request-level failure, or an undecodable body), both
`get_llm_answer` and `get_llm_answer_api` return a record — they never fall
through the retry loop and no exception escapes — and the returned record
always renders as an object with a text field and a `sources` array. -/
theorem C1_answer_total (prompt : String) (transport : Json → Nat → Outcome) :
    (∃ runC tx ss, get_llm_answer prompt transport = some runC ∧
      cliResultJson runC.result = Json.obj [("text", tx), ("sources", Json.arr ss)]) ∧
    (∃ runA ax ss2, get_llm_answer_api prompt transport = some runA ∧
      apiResultJson runA.result = Json.obj [("answer", ax), ("sources", Json.arr ss2)]) := by
  constructor
  · have h := cliLoop_isSome transport (requestPayloadCli prompt) [0, 1, 2, 3, 4]
      (by decide)
    obtain ⟨run, hrun⟩ := Option.isSome_iff_exists.mp h
    refine ⟨run, run.result.text, run.result.sources.map sourceJson, ?_, rfl⟩
    unfold get_llm_answer
    rw [range_MAX_RETRIES, hrun]
  · have h := apiLoop_isSome transport (requestPayloadApi prompt) [0, 1, 2, 3, 4]
      (by decide)
    obtain ⟨run, hrun⟩ := Option.isSome_iff_exists.mp h
    refine ⟨run, run.result.answer, run.result.sources.map sourceJson, ?_, rfl⟩
    unfold get_llm_answer_api
    rw [range_MAX_RETRIES, hrun]

/-- C2: if the transport fails on every attempt, both implementations make
exactly 5 outbound attempts with back-off sleeps of 1, 2, 4, 8 between
consecutive attempts, and return an answer whose text contains the indicator
`Error` and whose sources list is empty. -/
theorem C2_retry_exhaustion (prompt : String) (transport : Json → Nat → Outcome)
    (msgs : Nat → String)
    (hcli : ∀ i, i < MAX_RETRIES →
      transport (requestPayloadCli prompt) i = .requestError (msgs i))
    (hapi : ∀ i, i < MAX_RETRIES →
      transport (requestPayloadApi prompt) i = .requestError (msgs i)) :
    get_llm_answer prompt transport = some ⟨mkCliFail (msgs 4), 5, [1, 2, 4, 8]⟩ ∧
    get_llm_answer_api prompt transport = some ⟨mkApiFail (msgs 4), 5, [1, 2, 4, 8]⟩ ∧
    (∃ rest, (mkCliFail (msgs 4)).text = Json.str ("Error" ++ rest)) ∧
    (∃ pre rest, (mkApiFail (msgs 4)).answer = Json.str (pre ++ ("Error" ++ rest))) ∧
    (mkCliFail (msgs 4)).sources = [] ∧ (mkApiFail (msgs 4)).sources = [] := by
  refine ⟨?_, ?_, ?_, ?_, rfl, rfl⟩
  · unfold get_llm_answer
    rw [range_MAX_RETRIES]
    exact cliLoop_all_fail transport (requestPayloadCli prompt) msgs hcli
  · unfold get_llm_answer_api
    rw [range_MAX_RETRIES]
    exact apiLoop_all_fail transport (requestPayloadApi prompt) msgs hapi
  · refine ⟨": Failed to connect to API after 5 attempts. " ++ msgs 4, ?_⟩
    show Json.str _ = Json.str _
    rw [← String.append_assoc]
    rfl
  · refine ⟨"API ", ": Failed to connect to LLM after 5 attempts. " ++ msgs 4, ?_⟩
    show Json.str _ = Json.str _
    rw [← String.append_assoc, ← String.append_assoc]
    rfl

/-- Witness for C2 at a concrete always-failing transport. -/
theorem C2_retry_exhaustion_witness :
    get_llm_answer "q" (fun _ _ => Outcome.requestError "boom") =
      some ⟨mkCliFail "boom", 5, [1, 2, 4, 8]⟩ ∧
    get_llm_answer_api "q" (fun _ _ => Outcome.requestError "boom") =
      some ⟨mkApiFail "boom", 5, [1, 2, 4, 8]⟩ := by
  have h := C2_retry_exhaustion "q" (fun _ _ => Outcome.requestError "boom")
    (fun _ => "boom") (fun _ _ => rfl) (fun _ _ => rfl)
  exact ⟨h.1, h.2.1⟩

/-- C7: on every return path of either implementation, the returned record
has a `sources` field holding a (possibly empty) array — never absent and
never null. -/
theorem C7_sources_always_list (prompt : String) (transport : Json → Nat → Outcome) :
    (∃ runC, get_llm_answer prompt transport = some runC ∧
      jsonField (cliResultJson runC.result) "sources" =
        some (Json.arr (runC.result.sources.map sourceJson))) ∧
    (∃ runA, get_llm_answer_api prompt transport = some runA ∧
      jsonField (apiResultJson runA.result) "sources" =
        some (Json.arr (runA.result.sources.map sourceJson))) := by
  constructor
  · have h := cliLoop_isSome transport (requestPayloadCli prompt) [0, 1, 2, 3, 4]
      (by decide)
    obtain ⟨run, hrun⟩ := Option.isSome_iff_exists.mp h
    refine ⟨run, ?_, rfl⟩
    unfold get_llm_answer
    rw [range_MAX_RETRIES, hrun]
  · have h := apiLoop_isSome transport (requestPayloadApi prompt) [0, 1, 2, 3, 4]
      (by decide)
    obtain ⟨run, hrun⟩ := Option.isSome_iff_exists.mp h
    refine ⟨run, ?_, rfl⟩
    unfold get_llm_answer_api
    rw [range_MAX_RETRIES, hrun]

/-- C3 counterexample: on a response whose `candidates` list is empty —
squarely "no candidate" — `get_llm_answer` does **not** return the
malformed-response message; indexing `[0]` raises `IndexError`, the generic
handler converts it, and the text is the unexpected-error message.  Moreover
the web implementation's malformed-shape text is `Error: `-prefixed, not the
exact text the claim states. -/
theorem C3_counterexample :
    get_llm_answer "q" (fun _ _ => Outcome.ok bodyEmptyCandidates) =
      some ⟨⟨Json.str "An unexpected error occurred: list index out of range", []⟩, 1, []⟩ ∧
    Json.str "An unexpected error occurred: list index out of range" ≠
      Json.str "API response was empty or malformed." ∧
    get_llm_answer_api "q" (fun _ _ => Outcome.ok bodyNoCandidates) =
      some ⟨⟨Json.str "Error: API response was empty or malformed.", []⟩, 1, []⟩ ∧
    Json.str "Error: API response was empty or malformed." ≠
      Json.str "API response was empty or malformed." := by
  refine ⟨rfl, ?_, rfl, ?_⟩ <;> simp

/-- C3 (amended): a successfully-transported first response parses normally,
and every response **object** that lacks the expected shape without raising —
no `candidates` key, a `null` first candidate, a first-candidate object with
no truthy `content`, or a `content` object with no truthy `parts` — produces
the malformed-response answer: exactly
`{"text": "API response was empty or malformed.", "sources": []}` in the CLI
implementation, and the same with text
`"Error: API response was empty or malformed."` in the web implementation.
(An **empty** `candidates` list is not among these: it raises `IndexError`
and is converted to the unexpected-error answer, see the counterexample.) -/
theorem C3_malformed_shape (prompt : String) (t : Json → Nat → Outcome) :
    (∀ body, t (requestPayloadCli prompt) 0 = .ok body →
      get_llm_answer prompt t = some ⟨attemptCli body, 1, []⟩) ∧
    (∀ body, t (requestPayloadApi prompt) 0 = .ok body →
      get_llm_answer_api prompt t = some ⟨attemptApi body, 1, []⟩) ∧
    (∀ bfs : List (String × Json), bfs.lookup "candidates" = none →
      attemptCli (Json.obj bfs) = mkMalformedCli ∧
      attemptApi (Json.obj bfs) = mkMalformedApi) ∧
    (∀ (bfs : List (String × Json)) (crest : List Json),
      bfs.lookup "candidates" = some (Json.arr (Json.null :: crest)) →
      attemptCli (Json.obj bfs) = mkMalformedCli ∧
      attemptApi (Json.obj bfs) = mkMalformedApi) ∧
    (∀ (bfs cfs : List (String × Json)) (crest : List Json),
      bfs.lookup "candidates" = some (Json.arr (Json.obj cfs :: crest)) →
      cfs.isEmpty = false →
      Json.truthy ((cfs.lookup "content").getD Json.null) = false →
      attemptCli (Json.obj bfs) = mkMalformedCli ∧
      attemptApi (Json.obj bfs) = mkMalformedApi) ∧
    (∀ (bfs cfs cnf : List (String × Json)) (crest : List Json),
      bfs.lookup "candidates" = some (Json.arr (Json.obj cfs :: crest)) →
      cfs.lookup "content" = some (Json.obj cnf) →
      Json.truthy ((cnf.lookup "parts").getD Json.null) = false →
      attemptCli (Json.obj bfs) = mkMalformedCli ∧
      attemptApi (Json.obj bfs) = mkMalformedApi) ∧
    mkMalformedCli = ⟨Json.str "API response was empty or malformed.", []⟩ ∧
    mkMalformedApi = ⟨Json.str "Error: API response was empty or malformed.", []⟩ := by
  refine ⟨?_, ?_, ?_, ?_, ?_, ?_, rfl, rfl⟩
  · exact fun body h => get_llm_answer_first_ok prompt t body h
  · exact fun body h => get_llm_answer_api_first_ok prompt t body h
  · intro bfs hb
    have h := parseShape_no_candidates bfs hb
    exact ⟨attemptCli_of_none h, attemptApi_of_none h⟩
  · intro bfs crest hb
    have h := parseShape_null_candidate bfs crest hb
    exact ⟨attemptCli_of_none h, attemptApi_of_none h⟩
  · intro bfs cfs crest hb hne hc
    have h := parseShape_no_content bfs cfs crest hb hne hc
    exact ⟨attemptCli_of_none h, attemptApi_of_none h⟩
  · intro bfs cfs cnf crest hb hc hp
    have h := parseShape_no_parts bfs cfs cnf crest hb hc hp
    exact ⟨attemptCli_of_none h, attemptApi_of_none h⟩

/-- Witness for C3 at a concrete no-`candidates`-key response. -/
theorem C3_malformed_shape_witness :
    get_llm_answer "q" (fun _ _ => Outcome.ok bodyNoCandidates) =
      some ⟨mkMalformedCli, 1, []⟩ := by
  have h := C3_malformed_shape "q" (fun _ _ => Outcome.ok bodyNoCandidates)
  have h1 := h.1 bodyNoCandidates rfl
  have h3 := (h.2.2.1 [("other", Json.str "x")] rfl).1
  rw [h1, show attemptCli bodyNoCandidates = mkMalformedCli from h3]

/-- C4 counterexample: on the very same transport behaviour and a fully
well-formed response, the two implementations do **not** return the same
record — the success field is named `text` in the CLI file and `answer` in the
web file. -/
theorem C4_counterexample :
    Option.map (fun r => cliResultJson r.result)
        (get_llm_answer "q" (fun _ _ => Outcome.ok bodySimple)) ≠
      Option.map (fun r => apiResultJson r.result)
        (get_llm_answer_api "q" (fun _ _ => Outcome.ok bodySimple)) := by
  have e1 : Option.map (fun r => cliResultJson r.result)
      (get_llm_answer "q" (fun _ _ => Outcome.ok bodySimple)) =
      some (Json.obj [("text", Json.str "hi"), ("sources", Json.arr [])]) := rfl
  have e2 : Option.map (fun r => apiResultJson r.result)
      (get_llm_answer_api "q" (fun _ _ => Outcome.ok bodySimple)) =
      some (Json.obj [("answer", Json.str "hi"), ("sources", Json.arr [])]) := rfl
  rw [e1, e2]
  simp

/-- C4 (amended): under the same transport behaviour the two implementations
are equivalent **up to field naming and message wording**: they agree on
termination, attempt count, sleep schedule and extracted sources, and their
parsed texts agree on every shape-conforming response; they differ in the
success field name (`text` vs `answer`) and in the malformed/failure message
texts. -/
theorem C4_equiv_up_to_messages (prompt : String) (transport : Json → Nat → Outcome)
    (hsame : ∀ i, transport (requestPayloadCli prompt) i =
      transport (requestPayloadApi prompt) i) :
    (∃ rc ra, get_llm_answer prompt transport = some rc ∧
      get_llm_answer_api prompt transport = some ra ∧
      rc.attempts = ra.attempts ∧ rc.sleeps = ra.sleeps ∧
      rc.result.sources = ra.result.sources) ∧
    (∀ body rc2 ra2, parseBodyCli body = .ok rc2 → parseBodyApi body = .ok ra2 →
      (rc2.text = ra2.answer ∨ (rc2 = mkMalformedCli ∧ ra2 = mkMalformedApi))) := by
  constructor
  · rcases loop_relate transport (requestPayloadCli prompt) (requestPayloadApi prompt)
      hsame [0, 1, 2, 3, 4] with ⟨hc, _⟩ | ⟨rc, ra, hc, hA, h1, h2, h3⟩
    · have htot := cliLoop_isSome transport (requestPayloadCli prompt) [0, 1, 2, 3, 4]
        (by decide)
      rw [hc] at htot
      cases htot
    · refine ⟨rc, ra, ?_, ?_, h1, h2, h3⟩
      · unfold get_llm_answer
        rw [range_MAX_RETRIES, hc]
      · unfold get_llm_answer_api
        rw [range_MAX_RETRIES, hA]
  · intro body rc2 ra2 hc2 ha2
    rcases parse_relate body with ⟨e, hce, _⟩ | ⟨rc, ra, hcc, haa, _, htext⟩
    · rw [hce] at hc2
      cases hc2
    · rw [hcc] at hc2
      rw [haa] at ha2
      injection hc2 with hh1
      injection ha2 with hh2
      subst hh1
      subst hh2
      exact htext

/-- Witness for C4 at a concrete transport (same outcomes for both payloads). -/
theorem C4_equiv_up_to_messages_witness :
    ∃ rc ra, get_llm_answer "q" (fun _ _ => Outcome.requestError "x") = some rc ∧
      get_llm_answer_api "q" (fun _ _ => Outcome.requestError "x") = some ra ∧
      rc.attempts = ra.attempts ∧ rc.sleeps = ra.sleeps ∧
      rc.result.sources = ra.result.sources :=
  (C4_equiv_up_to_messages "q" (fun _ _ => Outcome.requestError "x") (fun _ => rfl)).1

/-- C5: on a well-formed success response carrying grounding attributions of
the documented shape, both implementations return exactly the specification's
source list (`specSources`): the attributions that carry both a web URI and a
web title, each mapped to a `{uri, title}` source; the rest are silently
skipped and no partial source is constructed. -/
theorem C5_source_extraction (prompt : String) (t : Json → Nat → Outcome)
    (bfs cfs gmf cnf : List (String × Json)) (crest : List Json) (p0 : Json)
    (ps : List Json) (tj : Json) (attrs : List Json)
    (hb : bfs.lookup "candidates" = some (Json.arr (Json.obj cfs :: crest)))
    (hc : cfs.lookup "content" = some (Json.obj cnf))
    (hcn : cnf.isEmpty = false)
    (hp : cnf.lookup "parts" = some (Json.arr (p0 :: ps)))
    (htx : pyGetItem p0 "text" = .ok tj)
    (hgm : cfs.lookup "groundingMetadata" = some (Json.obj gmf))
    (hga : gmf.lookup "groundingAttributions" = some (Json.arr attrs))
    (hsh : ∀ a ∈ attrs, shapedAttr a)
    (hok : t (requestPayloadCli prompt) 0 = .ok (Json.obj bfs))
    (hok2 : t (requestPayloadApi prompt) 0 = .ok (Json.obj bfs)) :
    get_llm_answer prompt t = some ⟨⟨tj, specSources attrs⟩, 1, []⟩ ∧
    get_llm_answer_api prompt t = some ⟨⟨tj, specSources attrs⟩, 1, []⟩ := by
  have hps := parseShape_success_gm bfs cfs gmf crest cnf p0 ps tj attrs hb hc hcn
    hp htx hgm hga hsh
  constructor
  · rw [get_llm_answer_first_ok prompt t _ hok, attemptCli_of_some hps]
  · rw [get_llm_answer_api_first_ok prompt t _ hok2, attemptApi_of_some hps]

/-- Witness for C5: two attributions, one missing its URI — exactly one
source comes back. -/
theorem C5_source_extraction_witness :
    get_llm_answer "q" (fun _ _ => Outcome.ok bodyGrounded) =
      some ⟨⟨Json.str "hi", [⟨Json.str "u1", Json.str "t1"⟩]⟩, 1, []⟩ ∧
    get_llm_answer_api "q" (fun _ _ => Outcome.ok bodyGrounded) =
      some ⟨⟨Json.str "hi", [⟨Json.str "u1", Json.str "t1"⟩]⟩, 1, []⟩ := by
  have h := C5_source_extraction "q" (fun _ _ => Outcome.ok bodyGrounded)
    [("candidates", Json.arr [Json.obj
      [("content", Json.obj [("parts", Json.arr [Json.obj [("text", Json.str "hi")]])]),
       ("groundingMetadata", Json.obj [("groundingAttributions",
          Json.arr [attrComplete, attrNoUri])])]])]
    [("content", Json.obj [("parts", Json.arr [Json.obj [("text", Json.str "hi")]])]),
     ("groundingMetadata", Json.obj [("groundingAttributions",
        Json.arr [attrComplete, attrNoUri])])]
    [("groundingAttributions", Json.arr [attrComplete, attrNoUri])]
    [("parts", Json.arr [Json.obj [("text", Json.str "hi")]])]
    [] (Json.obj [("text", Json.str "hi")]) [] (Json.str "hi")
    [attrComplete, attrNoUri]
    rfl rfl rfl rfl rfl rfl rfl (by decide) rfl rfl
  exact h

/-- C8: on a well-formed success response whose first candidate has no
`groundingMetadata` key at all, both implementations return the candidate's
text with an empty source list. -/
theorem C8_no_grounding_metadata (prompt : String) (t : Json → Nat → Outcome)
    (bfs cfs cnf : List (String × Json)) (crest : List Json) (p0 : Json)
    (ps : List Json) (tj : Json)
    (hb : bfs.lookup "candidates" = some (Json.arr (Json.obj cfs :: crest)))
    (hc : cfs.lookup "content" = some (Json.obj cnf))
    (hcn : cnf.isEmpty = false)
    (hp : cnf.lookup "parts" = some (Json.arr (p0 :: ps)))
    (htx : pyGetItem p0 "text" = .ok tj)
    (hgm : cfs.lookup "groundingMetadata" = none)
    (hok : t (requestPayloadCli prompt) 0 = .ok (Json.obj bfs))
    (hok2 : t (requestPayloadApi prompt) 0 = .ok (Json.obj bfs)) :
    get_llm_answer prompt t = some ⟨⟨tj, []⟩, 1, []⟩ ∧
    get_llm_answer_api prompt t = some ⟨⟨tj, []⟩, 1, []⟩ := by
  have hps := parseShape_success_no_gm bfs cfs crest cnf p0 ps tj hb hc hcn hp htx hgm
  constructor
  · rw [get_llm_answer_first_ok prompt t _ hok, attemptCli_of_some hps]
  · rw [get_llm_answer_api_first_ok prompt t _ hok2, attemptApi_of_some hps]

/-- Witness for C8 at a concrete metadata-free success body. -/
theorem C8_no_grounding_metadata_witness :
    get_llm_answer "q" (fun _ _ => Outcome.ok bodySimple) =
      some ⟨⟨Json.str "hi", []⟩, 1, []⟩ ∧
    get_llm_answer_api "q" (fun _ _ => Outcome.ok bodySimple) =
      some ⟨⟨Json.str "hi", []⟩, 1, []⟩ := by
  have h := C8_no_grounding_metadata "q" (fun _ _ => Outcome.ok bodySimple)
    [("candidates", Json.arr [Json.obj
      [("content", Json.obj [("parts", Json.arr [Json.obj [("text", Json.str "hi")]])])]])]
    [("content", Json.obj [("parts", Json.arr [Json.obj [("text", Json.str "hi")]])])]
    [("parts", Json.arr [Json.obj [("text", Json.str "hi")]])]
    [] (Json.obj [("text", Json.str "hi")]) [] (Json.str "hi")
    rfl rfl rfl rfl rfl rfl rfl rfl
  exact h

/-- C9: if the transport fails on the first `k-1` attempts and succeeds on
attempt `k` (1-indexed, `1 ≤ k ≤ 5`), both implementations make exactly `k`
outbound attempts, sleep only after the first `k-1` attempts (durations
`2^0 … 2^(k-2)`), and return the normal parse of the `k`-th response. -/
theorem C9_success_attempt_k (prompt : String) (transport : Json → Nat → Outcome)
    (msgs : Nat → String) (body : Json) (k : Nat)
    (hk1 : 1 ≤ k) (hk5 : k ≤ MAX_RETRIES)
    (hcf : ∀ i, i < k - 1 →
      transport (requestPayloadCli prompt) i = .requestError (msgs i))
    (hco : transport (requestPayloadCli prompt) (k - 1) = .ok body)
    (haf : ∀ i, i < k - 1 →
      transport (requestPayloadApi prompt) i = .requestError (msgs i))
    (hao : transport (requestPayloadApi prompt) (k - 1) = .ok body) :
    get_llm_answer prompt transport =
      some ⟨attemptCli body, k, (List.range (k - 1)).map (fun i => 2 ^ i)⟩ ∧
    get_llm_answer_api prompt transport =
      some ⟨attemptApi body, k, (List.range (k - 1)).map (fun i => 2 ^ i)⟩ := by
  constructor
  · unfold get_llm_answer
    rw [range_MAX_RETRIES]
    exact cliLoop_succeed_at transport _ msgs body k hk1 hk5 hcf hco
  · unfold get_llm_answer_api
    rw [range_MAX_RETRIES]
    exact apiLoop_succeed_at transport _ msgs body k hk1 hk5 haf hao

/-- Witness for C9 at `k = 2`: one failure, then success — two attempts, one
sleep of 1 time unit, normal parsing of the second response. -/
theorem C9_success_attempt_k_witness :
    get_llm_answer "q"
        (fun _ i => if i = 0 then Outcome.requestError "e0" else Outcome.ok bodySimple) =
      some ⟨⟨Json.str "hi", []⟩, 2, [1]⟩ ∧
    get_llm_answer_api "q"
        (fun _ i => if i = 0 then Outcome.requestError "e0" else Outcome.ok bodySimple) =
      some ⟨⟨Json.str "hi", []⟩, 2, [1]⟩ := by
  have h := C9_success_attempt_k "q"
    (fun _ i => if i = 0 then Outcome.requestError "e0" else Outcome.ok bodySimple)
    (fun _ => "e0") bodySimple 2 (by norm_num) (by norm_num [MAX_RETRIES])
    (fun i hi => by
      have h0 : i = 0 := by omega
      subst h0
      rfl)
    rfl
    (fun i hi => by
      have h0 : i = 0 := by omega
      subst h0
      rfl)
    rfl
  exact h

/-- C6: on a JSON body whose `question` value is a string, the web handler
returns 400 with the fixed body and makes no outbound call when the question
is empty after trimming, and otherwise returns 200 with the record produced
by `get_llm_answer_api`. -/
theorem C6_web_endpoint (t : Json → Nat → Outcome) (q : String) :
    (pyStrip q = "" → ask_llm t (Json.obj [("question", Json.str q)]) =
      some (400,
        Json.obj [("answer", Json.str "Please provide a question."),
                  ("sources", Json.arr [])],
        0)) ∧
    (pyStrip q ≠ "" → ∃ run, get_llm_answer_api (pyStrip q) t = some run ∧
      ask_llm t (Json.obj [("question", Json.str q)]) =
        some (200, apiResultJson run.result, run.attempts)) := by
  constructor
  · intro h
    simp [ask_llm, h]
  · intro h
    have htot := apiLoop_isSome t (requestPayloadApi (pyStrip q)) [0, 1, 2, 3, 4]
      (by decide)
    obtain ⟨run, hrun⟩ := Option.isSome_iff_exists.mp htot
    have hapi : get_llm_answer_api (pyStrip q) t = some run := by
      unfold get_llm_answer_api
      rw [range_MAX_RETRIES, hrun]
    exact ⟨run, hapi, by simp [ask_llm, h, hapi]⟩

/-- Witness for C6: POST `{"question": "  "}` yields 400 with the fixed body
and zero outbound attempts. -/
theorem C6_web_endpoint_witness :
    ask_llm (fun _ _ => Outcome.requestError "x")
        (Json.obj [("question", Json.str "  ")]) =
      some (400,
        Json.obj [("answer", Json.str "Please provide a question."),
                  ("sources", Json.arr [])],
        0) :=
  (C6_web_endpoint (fun _ _ => Outcome.requestError "x") "  ").1 rfl

/-- C10: whenever `main`'s loop accepts a line (neither quit/exit nor blank),
the displayed text is the preprocessed question, but the POSTed payload's
prompt text is the raw input verbatim, and the returned answer is
`get_llm_answer` applied to the raw input — the preprocessed text influences
neither the request nor the answer. -/
theorem C10_raw_prompt_sent (t : Json → Nat → Outcome) (raw d : String)
    (payload : Json) (run : Option (Run CliResult))
    (h : mainHandleLine t raw = .answered d payload run) :
    d = preprocess_question raw ∧ payload = requestPayloadCli raw ∧
    payloadPromptText payload = some (Json.str raw) ∧
    run = get_llm_answer raw t := by
  unfold mainHandleLine at h
  by_cases h1 : pyLower raw = "quit" || pyLower raw = "exit"
  · rw [if_pos h1] at h
    cases h
  · rw [if_neg h1] at h
    by_cases h2 : pyStrip raw = ""
    · rw [if_pos h2] at h
      cases h
    · rw [if_neg h2] at h
      injection h with hd hp hr
      subst hd
      subst hp
      subst hr
      exact ⟨rfl, rfl, rfl, rfl⟩

/-- Witness for C10 at a concrete accepted line. -/
theorem C10_raw_prompt_sent_witness :
    payloadPromptText (requestPayloadCli "What is entropy?") =
      some (Json.str "What is entropy?") := by
  have h := C10_raw_prompt_sent (fun _ _ => Outcome.requestError "x")
    "What is entropy?" (preprocess_question "What is entropy?")
    (requestPayloadCli "What is entropy?")
    (get_llm_answer "What is entropy?" (fun _ _ => Outcome.requestError "x")) rfl
  exact h.2.2.1

end LlmQa
